import Mathlib

/-!
# Configlet client (`api/configlet.go`): request mapping and error normalisation

A shallow embedding of the configlet operations of package `cvpapi`.

* The HTTP transport (`c.client.Get`, `c.client.Post`) is the receiver's field, a pair of
  functions returning either the response bytes or a Go `error`.
* `json.Unmarshal`, `json.Marshal` and the method `(*ErrorResponse).Error`, which live outside
  `configlet.go`, are taken as parameters (`Externals`).
* A Go `(T, error)` return is a `Ret`: the value, the `error` (`none` is `nil`) and, in addition,
  the list of transport calls the operation issued.
-/

namespace cvpapi

/-! ## Go values -/

/-- Go `[]byte`. -/
abbrev Bytes := List UInt8

/-- Go `error`; only its message (`Error()`) is observable. `Option GoError` is a Go `error`
variable, `none` being `nil`. -/
structure GoError where
  msg : String
deriving DecidableEq, Repr

/-- Go slice `[]T`: `none` is the `nil` slice, `some []` an empty non-nil one. -/
abbrev Slice (α : Type) := Option (List α)

/-- Go `len(s)`. -/
def Slice.len {α : Type} : Slice α → Nat
  | none => 0
  | some l => l.length

/-- Go `url.Values` (`map[string][]string`), entries in the order of the literal. -/
abbrev Values := List (String × List String)

/-- Go `map[string]string`, entries in the order of the literal. -/
abbrev StringMap := List (String × String)

/-- The `interface{}` body handed to `Post`, one constructor per dynamic type used. -/
inductive Body where
  | stringMap (m : StringMap)
  | stringMapList (l : List StringMap)
  | bytes (b : Bytes)
deriving DecidableEq, Repr

/-- One call on the transport collaborator. -/
inductive Call where
  | Get (path : String) (query : Option Values)
  | Post (path : String) (query : Option Values) (body : Body)
deriving DecidableEq, Repr

/-- `fmt.Sprintf` for a format and a single argument printed with the verb `%s`: the first
`%s` is replaced by the argument, every other character is copied. -/
def Sprintf : List Char → String → List Char
  | [], _ => []
  | [c], _ => [c]
  | c :: d :: rest, a =>
    if c = '%' ∧ d = 's' then a.data ++ rest
    else c :: Sprintf (d :: rest) a

/-- `errors.Errorf(format, err)`: a non-nil error whose message is the formatted text; `%s`
prints `err.Error()`. -/
def Errorf (format : String) (err : GoError) : GoError :=
  ⟨String.mk (Sprintf format.data err.msg)⟩

/-- `strconv.Itoa`. -/
def Itoa (i : Int) : String :=
  if i < 0 then "-" ++ Nat.repr i.natAbs else Nat.repr i.toNat

/-! ## Data model -/

/-- Modelled from the spec: the struct `ErrorResponse` is declared outside `configlet.go`;
it carries an `ErrorCode` (read by `GetConfigletByName`) and a message field. -/
structure ErrorResponse where
  ErrorCode : String
  ErrorMessage : String
deriving DecidableEq, Repr

structure Configlet extends ErrorResponse where
  IsDefault : String
  DateTimeInLongFormat : Int
  ContainerCount : Int
  NetElementCount : Int
  IsAutoBuilder : String
  Reconciled : Bool
  FactoryID : Int
  Config : String
  User : String
  Note : String
  Name : String
  Key : String
  ID : Int
  Type_ : String
deriving DecidableEq, Repr

structure ConfigletList extends ErrorResponse where
  Total : Int
  Data : Slice Configlet
deriving DecidableEq, Repr

structure Device where
  IPAddress : String
  AppliedBy : String
  AppliedDate : Int
  ContainerName : String
  HostName : String
  TotalDevicesCount : Int
deriving DecidableEq, Repr

structure DeviceList extends ErrorResponse where
  Total : Int
  Data : Slice Device
deriving DecidableEq, Repr

structure ConfigletHistoryEntry where
  ConfigletID : String
  OldUserID : String
  NewUserID : String
  OldConfig : String
  NewConfig : String
  OldDate : String
  NewDate : String
  OldDateTimeInLongFormat : Int
  UpdatedDateTimeInLongFormat : Int
  FactoryID : Int
  Key : String
  ID : Int
deriving DecidableEq, Repr

structure ConfigletHistoryList extends ErrorResponse where
  Total : Int
  HistoryList : Slice ConfigletHistoryEntry
deriving DecidableEq, Repr

structure ConfigletOpReturn extends ErrorResponse where
  Data : Configlet
deriving DecidableEq, Repr

structure UpdateReturn extends ErrorResponse where
  Data : String
  TaskIDs : Slice String
deriving DecidableEq, Repr

/-- The anonymous struct `UpdateConfiglet` marshals as its request body. -/
structure UpdateData where
  Config : String
  Key : String
  Name : String
  WaitForTaskIDs : Bool
deriving DecidableEq, Repr

/-! ## Collaborators -/

/-- The transport collaborator behind `c.client`. -/
structure Transport where
  Get : String → Option Values → Except GoError Bytes
  Post : String → Option Values → Body → Except GoError Bytes

/-- The receiver of every operation. -/
structure CvpRestAPI where
  client : Transport

/-- Primitives used by `configlet.go` and defined elsewhere: `json.Unmarshal` at each envelope
type, `json.Marshal` at the update body, and `(*ErrorResponse).Error`, the embedded error
check (`none` is a `nil` error). -/
structure Externals where
  UnmarshalConfiglet : Bytes → Except GoError Configlet
  UnmarshalConfigletHistoryList : Bytes → Except GoError ConfigletHistoryList
  UnmarshalConfigletOpReturn : Bytes → Except GoError ConfigletOpReturn
  UnmarshalErrorResponse : Bytes → Except GoError ErrorResponse
  UnmarshalUpdateReturn : Bytes → Except GoError UpdateReturn
  UnmarshalDeviceList : Bytes → Except GoError DeviceList
  UnmarshalConfigletList : Bytes → Except GoError ConfigletList
  MarshalUpdateData : UpdateData → Except GoError Bytes
  Error : ErrorResponse → Option GoError

/-- What an operation hands back: the transport calls it issued, its value and its `error`. -/
structure Ret (α : Type) where
  calls : List Call
  val : α
  err : Option GoError
deriving DecidableEq, Repr

/-! ## Operations -/

/-- GetConfigletByName returns the configlet with the specified name. -/
def GetConfigletByName (X : Externals) (c : CvpRestAPI) (name : String) :
    Ret (Option Configlet) :=
  let query : Values := [("name", [name])]
  let calls := [Call.Get "/configlet/getConfigletByName.do" (some query)]
  match c.client.Get "/configlet/getConfigletByName.do" (some query) with
  | .error err => ⟨calls, none, some (Errorf "GetConfigletByName: %s" err)⟩
  | .ok resp =>
    match X.UnmarshalConfiglet resp with
    | .error err => ⟨calls, none, some (Errorf "GetConfigletByName: %s" err)⟩
    | .ok info =>
      match X.Error info.toErrorResponse with
      | some err =>
        -- Entity does not exist
        if info.ErrorCode = "132801" then ⟨calls, none, none⟩
        else ⟨calls, none, some (Errorf "GetConfigletByName: %s" err)⟩
      | none => ⟨calls, some info, none⟩

/-- GetConfigletHistory returns the history for a configlet provided the key, and a range. -/
def GetConfigletHistory (X : Externals) (c : CvpRestAPI) (key : String) (start : Int)
    (end_ : Int) : Ret (Option ConfigletHistoryList) :=
  let query : Values := [
    ("configletId", [key]),
    ("queryparam", [""]),
    ("startIndex", [Itoa start]),
    ("endIndex", [Itoa end_])]
  let calls := [Call.Get "/configlet/getConfigletHistory.do" (some query)]
  match c.client.Get "/configlet/getConfigletHistory.do" (some query) with
  | .error err => ⟨calls, none, some (Errorf "GetConfigletHistory: %s" err)⟩
  | .ok resp =>
    match X.UnmarshalConfigletHistoryList resp with
    | .error err => ⟨calls, none, some (Errorf "GetConfigletHistory: %s" err)⟩
    | .ok info =>
      match X.Error info.toErrorResponse with
      | some err => ⟨calls, none, some (Errorf "GetConfigletHistory: %s" err)⟩
      | none => ⟨calls, some info, none⟩

/-- GetAllConfigletHistory returns all the history for a given configlet. -/
def GetAllConfigletHistory (X : Externals) (c : CvpRestAPI) (key : String) :
    Ret (Option ConfigletHistoryList) :=
  GetConfigletHistory X c key 0 0

/-- AddConfiglet creates/adds a configlet. -/
def AddConfiglet (X : Externals) (c : CvpRestAPI) (name : String) (config : String) :
    Ret (Option Configlet) :=
  let data : StringMap := [
    ("name", name),
    ("config", config)]
  let calls := [Call.Post "/configlet/addConfiglet.do" none (Body.stringMap data)]
  match c.client.Post "/configlet/addConfiglet.do" none (Body.stringMap data) with
  | .error err => ⟨calls, none, some (Errorf "AddConfiglet: %s" err)⟩
  | .ok resp =>
    match X.UnmarshalConfigletOpReturn resp with
    | .error err => ⟨calls, none, some (Errorf "AddConfiglet: %s" err)⟩
    | .ok info =>
      match X.Error info.toErrorResponse with
      | some err => ⟨calls, none, some (Errorf "AddConfiglet: %s" err)⟩
      | none => ⟨calls, some info.Data, none⟩

/-- DeleteConfiglet deletes a configlet. -/
def DeleteConfiglet (X : Externals) (c : CvpRestAPI) (name : String) (key : String) :
    Ret Unit :=
  let data : List StringMap := [
    [("name", name),
     ("key", key)]]
  let calls := [Call.Post "/configlet/deleteConfiglet.do" none (Body.stringMapList data)]
  match c.client.Post "/configlet/deleteConfiglet.do" none (Body.stringMapList data) with
  | .error err => ⟨calls, (), some (Errorf "DeleteConfiglet: %s" err)⟩
  | .ok resp =>
    match X.UnmarshalErrorResponse resp with
    | .error err => ⟨calls, (), some (Errorf "DeleteConfiglet: %s" err)⟩
    | .ok info =>
      match X.Error info with
      | some err => ⟨calls, (), some (Errorf "DeleteConfiglet: %s" err)⟩
      | none => ⟨calls, (), none⟩

/-- UpdateConfiglet updates a configlet. This is the synchronous version that waits
for any tasks to be created and returns those task IDs. -/
def UpdateConfiglet (X : Externals) (c : CvpRestAPI) (config name key : String) :
    Ret (Slice String) :=
  let data : UpdateData := {
    Config := config,
    Key := key,
    Name := name,
    WaitForTaskIDs := true }
  match X.MarshalUpdateData data with
  | .error jsonErr => ⟨[], none, some (Errorf "UpdateConfiglet: %s" jsonErr)⟩
  | .ok jsonData =>
    let calls := [Call.Post "/configlet/updateConfiglet.do" none (Body.bytes jsonData)]
    match c.client.Post "/configlet/updateConfiglet.do" none (Body.bytes jsonData) with
    | .error err => ⟨calls, none, some (Errorf "UpdateConfiglet: %s" err)⟩
    | .ok resp =>
      match X.UnmarshalUpdateReturn resp with
      | .error err => ⟨calls, none, some (Errorf "UpdateConfiglet: %s" err)⟩
      | .ok info =>
        match X.Error info.toErrorResponse with
        | some err => ⟨calls, none, some (Errorf "UpdateConfiglet: %s" err)⟩
        | none => ⟨calls, info.TaskIDs, none⟩

/-- UpdateConfigletAsync updates a configlet. This is the asynchronous version and does not
wait for any tasks to be created to return them. -/
def UpdateConfigletAsync (X : Externals) (c : CvpRestAPI) (config : String) (name : String)
    (key : String) : Ret Unit :=
  let data : StringMap := [
    ("config", config),
    ("key", key),
    ("name", name)]
  let calls := [Call.Post "/configlet/updateConfiglet.do" none (Body.stringMap data)]
  match c.client.Post "/configlet/updateConfiglet.do" none (Body.stringMap data) with
  | .error err => ⟨calls, (), some (Errorf "UpdateConfiglet: %s" err)⟩
  | .ok resp =>
    match X.UnmarshalErrorResponse resp with
    | .error err => ⟨calls, (), some (Errorf "UpdateConfiglet: %s" err)⟩
    | .ok info =>
      match X.Error info with
      | some err => ⟨calls, (), some (Errorf "UpdateConfiglet: %s" err)⟩
      | none => ⟨calls, (), none⟩

/-- GetAppliedDevices lists the devices a configlet is applied to. -/
def GetAppliedDevices (X : Externals) (c : CvpRestAPI) (name : String) :
    Ret (Option DeviceList) :=
  let query : Values := [
    ("configletName", [name]),
    ("queryparam", [""]),
    ("startIndex", [Itoa 0]),
    ("endIndex", [Itoa 0])]
  let calls := [Call.Get "/configlet/getAppliedDevices.do" (some query)]
  match c.client.Get "/configlet/getAppliedDevices.do" (some query) with
  | .error err => ⟨calls, none, some (Errorf "GetAppliedDevices: %s" err)⟩
  | .ok resp =>
    match X.UnmarshalDeviceList resp with
    | .error err => ⟨calls, none, some (Errorf "GetAppliedDevices: %s" err)⟩
    | .ok info =>
      match X.Error info.toErrorResponse with
      | some err => ⟨calls, none, some (Errorf "GetAppliedDevices: %s" err)⟩
      | none => ⟨calls, some info, none⟩

/-- SearchConfigletsWithRange search function for configlets. -/
def SearchConfigletsWithRange (X : Externals) (c : CvpRestAPI) (searchStr : String)
    (start : Int) (end_ : Int) : Ret (Option ConfigletList) :=
  let query : Values := [
    ("queryparam", [searchStr]),
    ("startIndex", [Itoa start]),
    ("endIndex", [Itoa end_])]
  let calls := [Call.Get "/configlet/searchConfiglets.do" (some query)]
  match c.client.Get "/configlet/searchConfiglets.do" (some query) with
  | .error err => ⟨calls, none, some (Errorf "SearchConfiglets: %s" err)⟩
  | .ok resp =>
    match X.UnmarshalConfigletList resp with
    | .error err => ⟨calls, none, some (Errorf "SearchConfiglets: %s" err)⟩
    | .ok info =>
      match X.Error info.toErrorResponse with
      | some err => ⟨calls, none, some (Errorf "SearchConfiglets: %s" err)⟩
      | none => ⟨calls, some info, none⟩

/-- SearchConfiglets search function for configlets. -/
def SearchConfiglets (X : Externals) (c : CvpRestAPI) (searchStr : String) :
    Ret (Option ConfigletList) :=
  SearchConfigletsWithRange X c searchStr 0 0

/-! ## Sample collaborators

Concrete transports, decoders and an embedded error check at which the theorems below are
instantiated. -/

/-- A transport answering every call with the bytes `resp`. -/
def okTransport (resp : Bytes) : Transport :=
  ⟨fun _ _ => .ok resp, fun _ _ _ => .ok resp⟩

/-- A transport failing every call with the error `e`. -/
def failTransport (e : GoError) : Transport :=
  ⟨fun _ _ => .error e, fun _ _ _ => .error e⟩

/-- The zero value of `Configlet` with the given embedded error fields. -/
def sampleConfiglet (code message : String) : Configlet :=
  { ErrorCode := code, ErrorMessage := message, IsDefault := "", DateTimeInLongFormat := 0,
    ContainerCount := 0, NetElementCount := 0, IsAutoBuilder := "", Reconciled := false,
    FactoryID := 0, Config := "", User := "", Note := "", Name := "", Key := "", ID := 0,
    Type_ := "" }

/-- A decoder rejecting the empty input and decoding every other input to `v`. -/
def sampleUnmarshal {α : Type} (v : α) : Bytes → Except GoError α
  | [] => .error ⟨"unexpected end of JSON input"⟩
  | _ :: _ => .ok v

/-- An embedded error check reporting a failure exactly when `ErrorCode` is not empty. -/
def sampleError (e : ErrorResponse) : Option GoError :=
  if e.ErrorCode = "" then none else some ⟨e.ErrorMessage⟩

/-- Externals whose decoders produce envelopes carrying the error code `code` and the task
identifiers `tasks`, and whose encoder yields the single byte `0x7b`. -/
def sampleExternals (code : String) (tasks : Slice String) : Externals where
  UnmarshalConfiglet := sampleUnmarshal (sampleConfiglet code "message")
  UnmarshalConfigletHistoryList := sampleUnmarshal
    { ErrorCode := code, ErrorMessage := "message", Total := 0, HistoryList := none }
  UnmarshalConfigletOpReturn := sampleUnmarshal
    { ErrorCode := code, ErrorMessage := "message", Data := sampleConfiglet "" "" }
  UnmarshalErrorResponse := sampleUnmarshal { ErrorCode := code, ErrorMessage := "message" }
  UnmarshalUpdateReturn := sampleUnmarshal
    { ErrorCode := code, ErrorMessage := "message", Data := "", TaskIDs := tasks }
  UnmarshalDeviceList := sampleUnmarshal
    { ErrorCode := code, ErrorMessage := "message", Total := 0, Data := none }
  UnmarshalConfigletList := sampleUnmarshal
    { ErrorCode := code, ErrorMessage := "message", Total := 0, Data := none }
  MarshalUpdateData := fun _ => .ok [0x7b]
  Error := sampleError

/-! ## Auxiliary facts -/

theorem Itoa_zero : Itoa 0 = "0" := by decide

/-! ## Error classification -/

/-- C1: when the transport answers without failure, the response decodes into a Configlet
envelope and the embedded error check reports a failure, GetConfigletByName returns
(nil, nil) if the envelope's ErrorCode is exactly "132801", and a nil configlet with a
non-nil error for every other ErrorCode. -/
theorem GetConfigletByName_not_found_classification (X : Externals) (c : CvpRestAPI)
    (name : String) (resp : Bytes) (info : Configlet) (err : GoError)
    (hget : c.client.Get "/configlet/getConfigletByName.do" (some [("name", [name])])
      = .ok resp)
    (hdec : X.UnmarshalConfiglet resp = .ok info)
    (herr : X.Error info.toErrorResponse = some err) :
    (info.ErrorCode = "132801" →
      (GetConfigletByName X c name).val = none ∧ (GetConfigletByName X c name).err = none) ∧
    (info.ErrorCode ≠ "132801" →
      (GetConfigletByName X c name).val = none ∧
      (GetConfigletByName X c name).err ≠ none) := by
  constructor
  · intro hcode
    simp [GetConfigletByName, hget, hdec, herr, hcode]
  · intro hcode
    simp [GetConfigletByName, hget, hdec, herr, hcode]

/-- The classification at the code "132801" and at the code "1234". -/
theorem GetConfigletByName_not_found_classification_witness :
    ((okTransport [0x7b]).Get "/configlet/getConfigletByName.do" (some [("name", ["leaf1"])])
        = .ok [0x7b] ∧
      (sampleExternals "132801" none).UnmarshalConfiglet [0x7b]
        = .ok (sampleConfiglet "132801" "message") ∧
      (sampleExternals "132801" none).Error (sampleConfiglet "132801" "message").toErrorResponse
        = some ⟨"message"⟩) ∧
    ((GetConfigletByName (sampleExternals "132801" none) ⟨okTransport [0x7b]⟩ "leaf1").val
        = none ∧
      (GetConfigletByName (sampleExternals "132801" none) ⟨okTransport [0x7b]⟩ "leaf1").err
        = none) ∧
    ((GetConfigletByName (sampleExternals "1234" none) ⟨okTransport [0x7b]⟩ "leaf1").val
        = none ∧
      (GetConfigletByName (sampleExternals "1234" none) ⟨okTransport [0x7b]⟩ "leaf1").err
        ≠ none) :=
  ⟨⟨rfl, rfl, by decide⟩,
   (GetConfigletByName_not_found_classification (sampleExternals "132801" none)
     ⟨okTransport [0x7b]⟩ "leaf1" [0x7b] (sampleConfiglet "132801" "message") ⟨"message"⟩
     rfl rfl (by decide)).1 rfl,
   (GetConfigletByName_not_found_classification (sampleExternals "1234" none)
     ⟨okTransport [0x7b]⟩ "leaf1" [0x7b] (sampleConfiglet "1234" "message") ⟨"message"⟩
     rfl rfl (by decide)).2 (by decide)⟩

/-- C2: outside fetch-by-name an embedded error is never special-cased.  For each of
GetConfigletHistory, GetAllConfigletHistory, AddConfiglet, DeleteConfiglet, UpdateConfiglet,
UpdateConfigletAsync, GetAppliedDevices, SearchConfigletsWithRange and SearchConfiglets, when
the transport answers, the response decodes into the operation's envelope and the embedded
error check reports a failure (whatever the ErrorCode), the operation returns a non-nil
error and, where it has a result value, a nil result. -/
theorem embedded_error_not_special_cased (X : Externals) (c : CvpRestAPI) :
    (∀ (key : String) (start end_ : Int) (resp : Bytes) (info : ConfigletHistoryList)
        (err : GoError),
      c.client.Get "/configlet/getConfigletHistory.do"
        (some [("configletId", [key]), ("queryparam", [""]), ("startIndex", [Itoa start]),
          ("endIndex", [Itoa end_])]) = .ok resp →
      X.UnmarshalConfigletHistoryList resp = .ok info →
      X.Error info.toErrorResponse = some err →
      (GetConfigletHistory X c key start end_).val = none ∧
      (GetConfigletHistory X c key start end_).err ≠ none) ∧
    (∀ (key : String) (resp : Bytes) (info : ConfigletHistoryList) (err : GoError),
      c.client.Get "/configlet/getConfigletHistory.do"
        (some [("configletId", [key]), ("queryparam", [""]), ("startIndex", ["0"]),
          ("endIndex", ["0"])]) = .ok resp →
      X.UnmarshalConfigletHistoryList resp = .ok info →
      X.Error info.toErrorResponse = some err →
      (GetAllConfigletHistory X c key).val = none ∧
      (GetAllConfigletHistory X c key).err ≠ none) ∧
    (∀ (name config : String) (resp : Bytes) (info : ConfigletOpReturn) (err : GoError),
      c.client.Post "/configlet/addConfiglet.do" none
        (Body.stringMap [("name", name), ("config", config)]) = .ok resp →
      X.UnmarshalConfigletOpReturn resp = .ok info →
      X.Error info.toErrorResponse = some err →
      (AddConfiglet X c name config).val = none ∧
      (AddConfiglet X c name config).err ≠ none) ∧
    (∀ (name key : String) (resp : Bytes) (info : ErrorResponse) (err : GoError),
      c.client.Post "/configlet/deleteConfiglet.do" none
        (Body.stringMapList [[("name", name), ("key", key)]]) = .ok resp →
      X.UnmarshalErrorResponse resp = .ok info →
      X.Error info = some err →
      (DeleteConfiglet X c name key).err ≠ none) ∧
    (∀ (config name key : String) (jsonData resp : Bytes) (info : UpdateReturn)
        (err : GoError),
      X.MarshalUpdateData
        { Config := config, Key := key, Name := name, WaitForTaskIDs := true }
        = .ok jsonData →
      c.client.Post "/configlet/updateConfiglet.do" none (Body.bytes jsonData) = .ok resp →
      X.UnmarshalUpdateReturn resp = .ok info →
      X.Error info.toErrorResponse = some err →
      (UpdateConfiglet X c config name key).val = none ∧
      (UpdateConfiglet X c config name key).err ≠ none) ∧
    (∀ (config name key : String) (resp : Bytes) (info : ErrorResponse) (err : GoError),
      c.client.Post "/configlet/updateConfiglet.do" none
        (Body.stringMap [("config", config), ("key", key), ("name", name)]) = .ok resp →
      X.UnmarshalErrorResponse resp = .ok info →
      X.Error info = some err →
      (UpdateConfigletAsync X c config name key).err ≠ none) ∧
    (∀ (name : String) (resp : Bytes) (info : DeviceList) (err : GoError),
      c.client.Get "/configlet/getAppliedDevices.do"
        (some [("configletName", [name]), ("queryparam", [""]), ("startIndex", ["0"]),
          ("endIndex", ["0"])]) = .ok resp →
      X.UnmarshalDeviceList resp = .ok info →
      X.Error info.toErrorResponse = some err →
      (GetAppliedDevices X c name).val = none ∧
      (GetAppliedDevices X c name).err ≠ none) ∧
    (∀ (searchStr : String) (start end_ : Int) (resp : Bytes) (info : ConfigletList)
        (err : GoError),
      c.client.Get "/configlet/searchConfiglets.do"
        (some [("queryparam", [searchStr]), ("startIndex", [Itoa start]),
          ("endIndex", [Itoa end_])]) = .ok resp →
      X.UnmarshalConfigletList resp = .ok info →
      X.Error info.toErrorResponse = some err →
      (SearchConfigletsWithRange X c searchStr start end_).val = none ∧
      (SearchConfigletsWithRange X c searchStr start end_).err ≠ none) ∧
    (∀ (searchStr : String) (resp : Bytes) (info : ConfigletList) (err : GoError),
      c.client.Get "/configlet/searchConfiglets.do"
        (some [("queryparam", [searchStr]), ("startIndex", ["0"]), ("endIndex", ["0"])])
        = .ok resp →
      X.UnmarshalConfigletList resp = .ok info →
      X.Error info.toErrorResponse = some err →
      (SearchConfiglets X c searchStr).val = none ∧
      (SearchConfiglets X c searchStr).err ≠ none) := by
  refine ⟨?_, ?_, ?_, ?_, ?_, ?_, ?_, ?_, ?_⟩
  · intro key start end_ resp info err hget hdec herr
    simp [GetConfigletHistory, hget, hdec, herr]
  · intro key resp info err hget hdec herr
    simp [GetAllConfigletHistory, GetConfigletHistory, Itoa_zero, hget, hdec, herr]
  · intro name config resp info err hpost hdec herr
    simp [AddConfiglet, hpost, hdec, herr]
  · intro name key resp info err hpost hdec herr
    simp [DeleteConfiglet, hpost, hdec, herr]
  · intro config name key jsonData resp info err hmar hpost hdec herr
    simp [UpdateConfiglet, hmar, hpost, hdec, herr]
  · intro config name key resp info err hpost hdec herr
    simp [UpdateConfigletAsync, hpost, hdec, herr]
  · intro name resp info err hget hdec herr
    simp [GetAppliedDevices, Itoa_zero, hget, hdec, herr]
  · intro searchStr start end_ resp info err hget hdec herr
    simp [SearchConfigletsWithRange, hget, hdec, herr]
  · intro searchStr resp info err hget hdec herr
    simp [SearchConfiglets, SearchConfigletsWithRange, Itoa_zero, hget, hdec, herr]

/-- The nine operations at an envelope carrying the code "132801", which only
GetConfigletByName treats as "not found". -/
theorem embedded_error_not_special_cased_witness :
    ((okTransport [0x7b]).Post "/configlet/deleteConfiglet.do" none
        (Body.stringMapList [[("name", "leaf1"), ("key", "k1")]]) = .ok [0x7b] ∧
      (sampleExternals "132801" none).UnmarshalErrorResponse [0x7b]
        = .ok ⟨"132801", "message"⟩ ∧
      (sampleExternals "132801" none).Error ⟨"132801", "message"⟩ = some ⟨"message"⟩) ∧
    ((GetConfigletHistory (sampleExternals "132801" none) ⟨okTransport [0x7b]⟩ "k1" 0 10).val
        = none ∧
      (GetConfigletHistory (sampleExternals "132801" none) ⟨okTransport [0x7b]⟩ "k1" 0 10).err
        ≠ none) ∧
    ((GetAllConfigletHistory (sampleExternals "132801" none) ⟨okTransport [0x7b]⟩ "k1").val
        = none ∧
      (GetAllConfigletHistory (sampleExternals "132801" none) ⟨okTransport [0x7b]⟩ "k1").err
        ≠ none) ∧
    ((AddConfiglet (sampleExternals "132801" none) ⟨okTransport [0x7b]⟩ "leaf1" "cfg").val
        = none ∧
      (AddConfiglet (sampleExternals "132801" none) ⟨okTransport [0x7b]⟩ "leaf1" "cfg").err
        ≠ none) ∧
    (DeleteConfiglet (sampleExternals "132801" none) ⟨okTransport [0x7b]⟩ "leaf1" "k1").err
      ≠ none ∧
    ((UpdateConfiglet (sampleExternals "132801" none) ⟨okTransport [0x7b]⟩
        "cfg" "leaf1" "k1").val = none ∧
      (UpdateConfiglet (sampleExternals "132801" none) ⟨okTransport [0x7b]⟩
        "cfg" "leaf1" "k1").err ≠ none) ∧
    (UpdateConfigletAsync (sampleExternals "132801" none) ⟨okTransport [0x7b]⟩
      "cfg" "leaf1" "k1").err ≠ none ∧
    ((GetAppliedDevices (sampleExternals "132801" none) ⟨okTransport [0x7b]⟩ "leaf1").val
        = none ∧
      (GetAppliedDevices (sampleExternals "132801" none) ⟨okTransport [0x7b]⟩ "leaf1").err
        ≠ none) ∧
    ((SearchConfigletsWithRange (sampleExternals "132801" none) ⟨okTransport [0x7b]⟩
        "leaf" 0 10).val = none ∧
      (SearchConfigletsWithRange (sampleExternals "132801" none) ⟨okTransport [0x7b]⟩
        "leaf" 0 10).err ≠ none) ∧
    ((SearchConfiglets (sampleExternals "132801" none) ⟨okTransport [0x7b]⟩ "leaf").val
        = none ∧
      (SearchConfiglets (sampleExternals "132801" none) ⟨okTransport [0x7b]⟩ "leaf").err
        ≠ none) :=
  ⟨⟨rfl, rfl, by decide⟩,
   (embedded_error_not_special_cased (sampleExternals "132801" none)
     ⟨okTransport [0x7b]⟩).1 "k1" 0 10 [0x7b] _ ⟨"message"⟩ rfl rfl (by decide),
   (embedded_error_not_special_cased (sampleExternals "132801" none)
     ⟨okTransport [0x7b]⟩).2.1 "k1" [0x7b] _ ⟨"message"⟩ rfl rfl (by decide),
   (embedded_error_not_special_cased (sampleExternals "132801" none)
     ⟨okTransport [0x7b]⟩).2.2.1 "leaf1" "cfg" [0x7b] _ ⟨"message"⟩ rfl rfl (by decide),
   (embedded_error_not_special_cased (sampleExternals "132801" none)
     ⟨okTransport [0x7b]⟩).2.2.2.1 "leaf1" "k1" [0x7b] _ ⟨"message"⟩ rfl rfl (by decide),
   (embedded_error_not_special_cased (sampleExternals "132801" none)
     ⟨okTransport [0x7b]⟩).2.2.2.2.1 "cfg" "leaf1" "k1" [0x7b] [0x7b] _ ⟨"message"⟩
       rfl rfl rfl (by decide),
   (embedded_error_not_special_cased (sampleExternals "132801" none)
     ⟨okTransport [0x7b]⟩).2.2.2.2.2.1 "cfg" "leaf1" "k1" [0x7b] _ ⟨"message"⟩
       rfl rfl (by decide),
   (embedded_error_not_special_cased (sampleExternals "132801" none)
     ⟨okTransport [0x7b]⟩).2.2.2.2.2.2.1 "leaf1" [0x7b] _ ⟨"message"⟩ rfl rfl (by decide),
   (embedded_error_not_special_cased (sampleExternals "132801" none)
     ⟨okTransport [0x7b]⟩).2.2.2.2.2.2.2.1 "leaf" 0 10 [0x7b] _ ⟨"message"⟩
       rfl rfl (by decide),
   (embedded_error_not_special_cased (sampleExternals "132801" none)
     ⟨okTransport [0x7b]⟩).2.2.2.2.2.2.2.2 "leaf" [0x7b] _ ⟨"message"⟩ rfl rfl (by decide)⟩

/-- C3: a transport failure always surfaces.  For each of GetConfigletByName,
GetConfigletHistory, GetAllConfigletHistory, AddConfiglet, DeleteConfiglet, UpdateConfiglet,
UpdateConfigletAsync, GetAppliedDevices, SearchConfigletsWithRange and SearchConfiglets, if
the Get/Post of the transport reports a failure then the operation returns a non-nil error
and, where it has a result value, a nil result; GetConfigletByName never answers
(nil, nil) then, whatever the text of the failure. -/
theorem transport_failure_surfaces (X : Externals) (c : CvpRestAPI) (e : GoError) :
    (∀ (name : String),
      c.client.Get "/configlet/getConfigletByName.do" (some [("name", [name])]) = .error e →
      (GetConfigletByName X c name).val = none ∧
      (GetConfigletByName X c name).err ≠ none) ∧
    (∀ (key : String) (start end_ : Int),
      c.client.Get "/configlet/getConfigletHistory.do"
        (some [("configletId", [key]), ("queryparam", [""]), ("startIndex", [Itoa start]),
          ("endIndex", [Itoa end_])]) = .error e →
      (GetConfigletHistory X c key start end_).val = none ∧
      (GetConfigletHistory X c key start end_).err ≠ none) ∧
    (∀ (key : String),
      c.client.Get "/configlet/getConfigletHistory.do"
        (some [("configletId", [key]), ("queryparam", [""]), ("startIndex", ["0"]),
          ("endIndex", ["0"])]) = .error e →
      (GetAllConfigletHistory X c key).val = none ∧
      (GetAllConfigletHistory X c key).err ≠ none) ∧
    (∀ (name config : String),
      c.client.Post "/configlet/addConfiglet.do" none
        (Body.stringMap [("name", name), ("config", config)]) = .error e →
      (AddConfiglet X c name config).val = none ∧
      (AddConfiglet X c name config).err ≠ none) ∧
    (∀ (name key : String),
      c.client.Post "/configlet/deleteConfiglet.do" none
        (Body.stringMapList [[("name", name), ("key", key)]]) = .error e →
      (DeleteConfiglet X c name key).err ≠ none) ∧
    (∀ (config name key : String) (jsonData : Bytes),
      X.MarshalUpdateData
        { Config := config, Key := key, Name := name, WaitForTaskIDs := true }
        = .ok jsonData →
      c.client.Post "/configlet/updateConfiglet.do" none (Body.bytes jsonData) = .error e →
      (UpdateConfiglet X c config name key).val = none ∧
      (UpdateConfiglet X c config name key).err ≠ none) ∧
    (∀ (config name key : String),
      c.client.Post "/configlet/updateConfiglet.do" none
        (Body.stringMap [("config", config), ("key", key), ("name", name)]) = .error e →
      (UpdateConfigletAsync X c config name key).err ≠ none) ∧
    (∀ (name : String),
      c.client.Get "/configlet/getAppliedDevices.do"
        (some [("configletName", [name]), ("queryparam", [""]), ("startIndex", ["0"]),
          ("endIndex", ["0"])]) = .error e →
      (GetAppliedDevices X c name).val = none ∧
      (GetAppliedDevices X c name).err ≠ none) ∧
    (∀ (searchStr : String) (start end_ : Int),
      c.client.Get "/configlet/searchConfiglets.do"
        (some [("queryparam", [searchStr]), ("startIndex", [Itoa start]),
          ("endIndex", [Itoa end_])]) = .error e →
      (SearchConfigletsWithRange X c searchStr start end_).val = none ∧
      (SearchConfigletsWithRange X c searchStr start end_).err ≠ none) ∧
    (∀ (searchStr : String),
      c.client.Get "/configlet/searchConfiglets.do"
        (some [("queryparam", [searchStr]), ("startIndex", ["0"]), ("endIndex", ["0"])])
        = .error e →
      (SearchConfiglets X c searchStr).val = none ∧
      (SearchConfiglets X c searchStr).err ≠ none) := by
  refine ⟨?_, ?_, ?_, ?_, ?_, ?_, ?_, ?_, ?_, ?_⟩
  · intro name hget
    simp [GetConfigletByName, hget]
  · intro key start end_ hget
    simp [GetConfigletHistory, hget]
  · intro key hget
    simp [GetAllConfigletHistory, GetConfigletHistory, Itoa_zero, hget]
  · intro name config hpost
    simp [AddConfiglet, hpost]
  · intro name key hpost
    simp [DeleteConfiglet, hpost]
  · intro config name key jsonData hmar hpost
    simp [UpdateConfiglet, hmar, hpost]
  · intro config name key hpost
    simp [UpdateConfigletAsync, hpost]
  · intro name hget
    simp [GetAppliedDevices, Itoa_zero, hget]
  · intro searchStr start end_ hget
    simp [SearchConfigletsWithRange, hget]
  · intro searchStr hget
    simp [SearchConfiglets, SearchConfigletsWithRange, Itoa_zero, hget]

/-- The ten operations over a transport whose failure text is "132801", with decoders and
error check that would otherwise produce the not-found envelope. -/
theorem transport_failure_surfaces_witness :
    (failTransport ⟨"132801"⟩).Get "/configlet/getConfigletByName.do"
      (some [("name", ["leaf1"])]) = .error ⟨"132801"⟩ ∧
    ((GetConfigletByName (sampleExternals "132801" none) ⟨failTransport ⟨"132801"⟩⟩
        "leaf1").val = none ∧
      (GetConfigletByName (sampleExternals "132801" none) ⟨failTransport ⟨"132801"⟩⟩
        "leaf1").err ≠ none) ∧
    ((GetConfigletHistory (sampleExternals "132801" none) ⟨failTransport ⟨"132801"⟩⟩
        "k1" 0 10).val = none ∧
      (GetConfigletHistory (sampleExternals "132801" none) ⟨failTransport ⟨"132801"⟩⟩
        "k1" 0 10).err ≠ none) ∧
    ((GetAllConfigletHistory (sampleExternals "132801" none) ⟨failTransport ⟨"132801"⟩⟩
        "k1").val = none ∧
      (GetAllConfigletHistory (sampleExternals "132801" none) ⟨failTransport ⟨"132801"⟩⟩
        "k1").err ≠ none) ∧
    ((AddConfiglet (sampleExternals "132801" none) ⟨failTransport ⟨"132801"⟩⟩
        "leaf1" "cfg").val = none ∧
      (AddConfiglet (sampleExternals "132801" none) ⟨failTransport ⟨"132801"⟩⟩
        "leaf1" "cfg").err ≠ none) ∧
    (DeleteConfiglet (sampleExternals "132801" none) ⟨failTransport ⟨"132801"⟩⟩
      "leaf1" "k1").err ≠ none ∧
    ((UpdateConfiglet (sampleExternals "132801" none) ⟨failTransport ⟨"132801"⟩⟩
        "cfg" "leaf1" "k1").val = none ∧
      (UpdateConfiglet (sampleExternals "132801" none) ⟨failTransport ⟨"132801"⟩⟩
        "cfg" "leaf1" "k1").err ≠ none) ∧
    (UpdateConfigletAsync (sampleExternals "132801" none) ⟨failTransport ⟨"132801"⟩⟩
      "cfg" "leaf1" "k1").err ≠ none ∧
    ((GetAppliedDevices (sampleExternals "132801" none) ⟨failTransport ⟨"132801"⟩⟩
        "leaf1").val = none ∧
      (GetAppliedDevices (sampleExternals "132801" none) ⟨failTransport ⟨"132801"⟩⟩
        "leaf1").err ≠ none) ∧
    ((SearchConfigletsWithRange (sampleExternals "132801" none) ⟨failTransport ⟨"132801"⟩⟩
        "leaf" 0 10).val = none ∧
      (SearchConfigletsWithRange (sampleExternals "132801" none) ⟨failTransport ⟨"132801"⟩⟩
        "leaf" 0 10).err ≠ none) ∧
    ((SearchConfiglets (sampleExternals "132801" none) ⟨failTransport ⟨"132801"⟩⟩
        "leaf").val = none ∧
      (SearchConfiglets (sampleExternals "132801" none) ⟨failTransport ⟨"132801"⟩⟩
        "leaf").err ≠ none) :=
  ⟨rfl,
   (transport_failure_surfaces (sampleExternals "132801" none) ⟨failTransport ⟨"132801"⟩⟩
     ⟨"132801"⟩).1 "leaf1" rfl,
   (transport_failure_surfaces (sampleExternals "132801" none) ⟨failTransport ⟨"132801"⟩⟩
     ⟨"132801"⟩).2.1 "k1" 0 10 rfl,
   (transport_failure_surfaces (sampleExternals "132801" none) ⟨failTransport ⟨"132801"⟩⟩
     ⟨"132801"⟩).2.2.1 "k1" rfl,
   (transport_failure_surfaces (sampleExternals "132801" none) ⟨failTransport ⟨"132801"⟩⟩
     ⟨"132801"⟩).2.2.2.1 "leaf1" "cfg" rfl,
   (transport_failure_surfaces (sampleExternals "132801" none) ⟨failTransport ⟨"132801"⟩⟩
     ⟨"132801"⟩).2.2.2.2.1 "leaf1" "k1" rfl,
   (transport_failure_surfaces (sampleExternals "132801" none) ⟨failTransport ⟨"132801"⟩⟩
     ⟨"132801"⟩).2.2.2.2.2.1 "cfg" "leaf1" "k1" [0x7b] rfl rfl,
   (transport_failure_surfaces (sampleExternals "132801" none) ⟨failTransport ⟨"132801"⟩⟩
     ⟨"132801"⟩).2.2.2.2.2.2.1 "cfg" "leaf1" "k1" rfl,
   (transport_failure_surfaces (sampleExternals "132801" none) ⟨failTransport ⟨"132801"⟩⟩
     ⟨"132801"⟩).2.2.2.2.2.2.2.1 "leaf1" rfl,
   (transport_failure_surfaces (sampleExternals "132801" none) ⟨failTransport ⟨"132801"⟩⟩
     ⟨"132801"⟩).2.2.2.2.2.2.2.2.1 "leaf" 0 10 rfl,
   (transport_failure_surfaces (sampleExternals "132801" none) ⟨failTransport ⟨"132801"⟩⟩
     ⟨"132801"⟩).2.2.2.2.2.2.2.2.2 "leaf" rfl⟩

/-- C6: a decode failure is always propagated.  For each of the ten error-returning
operations, when the transport answers without failure and the response does not decode into
the operation's envelope, the operation returns a non-nil error and, where it has a result
value, a nil result; and what it returns does not depend on the embedded error check, which
is not consulted for that response. -/
theorem decode_failure_propagated (X : Externals) (c : CvpRestAPI) (e : GoError) :
    (∀ (name : String) (resp : Bytes),
      c.client.Get "/configlet/getConfigletByName.do" (some [("name", [name])]) = .ok resp →
      X.UnmarshalConfiglet resp = .error e →
      (GetConfigletByName X c name).val = none ∧
      (GetConfigletByName X c name).err ≠ none ∧
      ∀ check : ErrorResponse → Option GoError,
        GetConfigletByName { X with Error := check } c name = GetConfigletByName X c name) ∧
    (∀ (key : String) (start end_ : Int) (resp : Bytes),
      c.client.Get "/configlet/getConfigletHistory.do"
        (some [("configletId", [key]), ("queryparam", [""]), ("startIndex", [Itoa start]),
          ("endIndex", [Itoa end_])]) = .ok resp →
      X.UnmarshalConfigletHistoryList resp = .error e →
      (GetConfigletHistory X c key start end_).val = none ∧
      (GetConfigletHistory X c key start end_).err ≠ none ∧
      ∀ check : ErrorResponse → Option GoError,
        GetConfigletHistory { X with Error := check } c key start end_ = GetConfigletHistory X c key start end_) ∧
    (∀ (key : String) (resp : Bytes),
      c.client.Get "/configlet/getConfigletHistory.do"
        (some [("configletId", [key]), ("queryparam", [""]), ("startIndex", ["0"]),
          ("endIndex", ["0"])]) = .ok resp →
      X.UnmarshalConfigletHistoryList resp = .error e →
      (GetAllConfigletHistory X c key).val = none ∧
      (GetAllConfigletHistory X c key).err ≠ none ∧
      ∀ check : ErrorResponse → Option GoError,
        GetAllConfigletHistory { X with Error := check } c key = GetAllConfigletHistory X c key) ∧
    (∀ (name config : String) (resp : Bytes),
      c.client.Post "/configlet/addConfiglet.do" none
        (Body.stringMap [("name", name), ("config", config)]) = .ok resp →
      X.UnmarshalConfigletOpReturn resp = .error e →
      (AddConfiglet X c name config).val = none ∧
      (AddConfiglet X c name config).err ≠ none ∧
      ∀ check : ErrorResponse → Option GoError,
        AddConfiglet { X with Error := check } c name config = AddConfiglet X c name config) ∧
    (∀ (name key : String) (resp : Bytes),
      c.client.Post "/configlet/deleteConfiglet.do" none
        (Body.stringMapList [[("name", name), ("key", key)]]) = .ok resp →
      X.UnmarshalErrorResponse resp = .error e →
      (DeleteConfiglet X c name key).err ≠ none ∧
      ∀ check : ErrorResponse → Option GoError,
        DeleteConfiglet { X with Error := check } c name key = DeleteConfiglet X c name key) ∧
    (∀ (config name key : String) (jsonData resp : Bytes),
      X.MarshalUpdateData
        { Config := config, Key := key, Name := name, WaitForTaskIDs := true }
        = .ok jsonData →
      c.client.Post "/configlet/updateConfiglet.do" none (Body.bytes jsonData) = .ok resp →
      X.UnmarshalUpdateReturn resp = .error e →
      (UpdateConfiglet X c config name key).val = none ∧
      (UpdateConfiglet X c config name key).err ≠ none ∧
      ∀ check : ErrorResponse → Option GoError,
        UpdateConfiglet { X with Error := check } c config name key = UpdateConfiglet X c config name key) ∧
    (∀ (config name key : String) (resp : Bytes),
      c.client.Post "/configlet/updateConfiglet.do" none
        (Body.stringMap [("config", config), ("key", key), ("name", name)]) = .ok resp →
      X.UnmarshalErrorResponse resp = .error e →
      (UpdateConfigletAsync X c config name key).err ≠ none ∧
      ∀ check : ErrorResponse → Option GoError,
        UpdateConfigletAsync { X with Error := check } c config name key = UpdateConfigletAsync X c config name key) ∧
    (∀ (name : String) (resp : Bytes),
      c.client.Get "/configlet/getAppliedDevices.do"
        (some [("configletName", [name]), ("queryparam", [""]), ("startIndex", ["0"]),
          ("endIndex", ["0"])]) = .ok resp →
      X.UnmarshalDeviceList resp = .error e →
      (GetAppliedDevices X c name).val = none ∧
      (GetAppliedDevices X c name).err ≠ none ∧
      ∀ check : ErrorResponse → Option GoError,
        GetAppliedDevices { X with Error := check } c name = GetAppliedDevices X c name) ∧
    (∀ (searchStr : String) (start end_ : Int) (resp : Bytes),
      c.client.Get "/configlet/searchConfiglets.do"
        (some [("queryparam", [searchStr]), ("startIndex", [Itoa start]),
          ("endIndex", [Itoa end_])]) = .ok resp →
      X.UnmarshalConfigletList resp = .error e →
      (SearchConfigletsWithRange X c searchStr start end_).val = none ∧
      (SearchConfigletsWithRange X c searchStr start end_).err ≠ none ∧
      ∀ check : ErrorResponse → Option GoError,
        SearchConfigletsWithRange { X with Error := check } c searchStr start end_ = SearchConfigletsWithRange X c searchStr start end_) ∧
    (∀ (searchStr : String) (resp : Bytes),
      c.client.Get "/configlet/searchConfiglets.do"
        (some [("queryparam", [searchStr]), ("startIndex", ["0"]), ("endIndex", ["0"])]) = .ok resp →
      X.UnmarshalConfigletList resp = .error e →
      (SearchConfiglets X c searchStr).val = none ∧
      (SearchConfiglets X c searchStr).err ≠ none ∧
      ∀ check : ErrorResponse → Option GoError,
        SearchConfiglets { X with Error := check } c searchStr = SearchConfiglets X c searchStr) := by
  refine ⟨?_, ?_, ?_, ?_, ?_, ?_, ?_, ?_, ?_, ?_⟩
  · intro name resp hcall hdec
    simp [GetConfigletByName, hcall, hdec]
  · intro key start end_ resp hcall hdec
    simp [GetConfigletHistory, hcall, hdec]
  · intro key resp hcall hdec
    simp [GetAllConfigletHistory, GetConfigletHistory, Itoa_zero, hcall, hdec]
  · intro name config resp hcall hdec
    simp [AddConfiglet, hcall, hdec]
  · intro name key resp hcall hdec
    simp [DeleteConfiglet, hcall, hdec]
  · intro config name key jsonData resp hmar hcall hdec
    simp [UpdateConfiglet, hmar, hcall, hdec]
  · intro config name key resp hcall hdec
    simp [UpdateConfigletAsync, hcall, hdec]
  · intro name resp hcall hdec
    simp [GetAppliedDevices, Itoa_zero, hcall, hdec]
  · intro searchStr start end_ resp hcall hdec
    simp [SearchConfigletsWithRange, hcall, hdec]
  · intro searchStr resp hcall hdec
    simp [SearchConfiglets, SearchConfigletsWithRange, Itoa_zero, hcall, hdec]

/-- The ten operations over a transport answering with the empty response, which no sample
decoder accepts. -/
theorem decode_failure_propagated_witness :
    ((okTransport []).Get "/configlet/getConfigletByName.do" (some [("name", ["leaf1"])])
        = .ok [] ∧
      (sampleExternals "" none).UnmarshalConfiglet []
        = .error ⟨"unexpected end of JSON input"⟩) ∧
    ((GetConfigletByName (sampleExternals "" none) ⟨okTransport []⟩ "leaf1").val = none ∧
      (GetConfigletByName (sampleExternals "" none) ⟨okTransport []⟩ "leaf1").err ≠ none ∧
      ∀ check : ErrorResponse → Option GoError,
        GetConfigletByName { (sampleExternals "" none) with Error := check } ⟨okTransport []⟩ "leaf1"
          = GetConfigletByName (sampleExternals "" none) ⟨okTransport []⟩ "leaf1") ∧
    ((GetConfigletHistory (sampleExternals "" none) ⟨okTransport []⟩ "k1" 0 10).val = none ∧
      (GetConfigletHistory (sampleExternals "" none) ⟨okTransport []⟩ "k1" 0 10).err ≠ none ∧
      ∀ check : ErrorResponse → Option GoError,
        GetConfigletHistory { (sampleExternals "" none) with Error := check } ⟨okTransport []⟩ "k1" 0 10
          = GetConfigletHistory (sampleExternals "" none) ⟨okTransport []⟩ "k1" 0 10) ∧
    ((GetAllConfigletHistory (sampleExternals "" none) ⟨okTransport []⟩ "k1").val = none ∧
      (GetAllConfigletHistory (sampleExternals "" none) ⟨okTransport []⟩ "k1").err ≠ none ∧
      ∀ check : ErrorResponse → Option GoError,
        GetAllConfigletHistory { (sampleExternals "" none) with Error := check } ⟨okTransport []⟩ "k1"
          = GetAllConfigletHistory (sampleExternals "" none) ⟨okTransport []⟩ "k1") ∧
    ((AddConfiglet (sampleExternals "" none) ⟨okTransport []⟩ "leaf1" "cfg").val = none ∧
      (AddConfiglet (sampleExternals "" none) ⟨okTransport []⟩ "leaf1" "cfg").err ≠ none ∧
      ∀ check : ErrorResponse → Option GoError,
        AddConfiglet { (sampleExternals "" none) with Error := check } ⟨okTransport []⟩ "leaf1" "cfg"
          = AddConfiglet (sampleExternals "" none) ⟨okTransport []⟩ "leaf1" "cfg") ∧
    ((DeleteConfiglet (sampleExternals "" none) ⟨okTransport []⟩ "leaf1" "k1").err ≠ none ∧
      ∀ check : ErrorResponse → Option GoError,
        DeleteConfiglet { (sampleExternals "" none) with Error := check } ⟨okTransport []⟩ "leaf1" "k1"
          = DeleteConfiglet (sampleExternals "" none) ⟨okTransport []⟩ "leaf1" "k1") ∧
    ((UpdateConfiglet (sampleExternals "" none) ⟨okTransport []⟩ "cfg" "leaf1" "k1").val = none ∧
      (UpdateConfiglet (sampleExternals "" none) ⟨okTransport []⟩ "cfg" "leaf1" "k1").err ≠ none ∧
      ∀ check : ErrorResponse → Option GoError,
        UpdateConfiglet { (sampleExternals "" none) with Error := check } ⟨okTransport []⟩ "cfg" "leaf1" "k1"
          = UpdateConfiglet (sampleExternals "" none) ⟨okTransport []⟩ "cfg" "leaf1" "k1") ∧
    ((UpdateConfigletAsync (sampleExternals "" none) ⟨okTransport []⟩ "cfg" "leaf1" "k1").err ≠ none ∧
      ∀ check : ErrorResponse → Option GoError,
        UpdateConfigletAsync { (sampleExternals "" none) with Error := check } ⟨okTransport []⟩ "cfg" "leaf1" "k1"
          = UpdateConfigletAsync (sampleExternals "" none) ⟨okTransport []⟩ "cfg" "leaf1" "k1") ∧
    ((GetAppliedDevices (sampleExternals "" none) ⟨okTransport []⟩ "leaf1").val = none ∧
      (GetAppliedDevices (sampleExternals "" none) ⟨okTransport []⟩ "leaf1").err ≠ none ∧
      ∀ check : ErrorResponse → Option GoError,
        GetAppliedDevices { (sampleExternals "" none) with Error := check } ⟨okTransport []⟩ "leaf1"
          = GetAppliedDevices (sampleExternals "" none) ⟨okTransport []⟩ "leaf1") ∧
    ((SearchConfigletsWithRange (sampleExternals "" none) ⟨okTransport []⟩ "leaf" 0 10).val = none ∧
      (SearchConfigletsWithRange (sampleExternals "" none) ⟨okTransport []⟩ "leaf" 0 10).err ≠ none ∧
      ∀ check : ErrorResponse → Option GoError,
        SearchConfigletsWithRange { (sampleExternals "" none) with Error := check } ⟨okTransport []⟩ "leaf" 0 10
          = SearchConfigletsWithRange (sampleExternals "" none) ⟨okTransport []⟩ "leaf" 0 10) ∧
    ((SearchConfiglets (sampleExternals "" none) ⟨okTransport []⟩ "leaf").val = none ∧
      (SearchConfiglets (sampleExternals "" none) ⟨okTransport []⟩ "leaf").err ≠ none ∧
      ∀ check : ErrorResponse → Option GoError,
        SearchConfiglets { (sampleExternals "" none) with Error := check } ⟨okTransport []⟩ "leaf"
          = SearchConfiglets (sampleExternals "" none) ⟨okTransport []⟩ "leaf") :=
  ⟨⟨rfl, rfl⟩,
   (decode_failure_propagated (sampleExternals "" none) ⟨okTransport []⟩
     ⟨"unexpected end of JSON input"⟩).1 "leaf1" [] rfl rfl,
   (decode_failure_propagated (sampleExternals "" none) ⟨okTransport []⟩
     ⟨"unexpected end of JSON input"⟩).2.1 "k1" 0 10 [] rfl rfl,
   (decode_failure_propagated (sampleExternals "" none) ⟨okTransport []⟩
     ⟨"unexpected end of JSON input"⟩).2.2.1 "k1" [] rfl rfl,
   (decode_failure_propagated (sampleExternals "" none) ⟨okTransport []⟩
     ⟨"unexpected end of JSON input"⟩).2.2.2.1 "leaf1" "cfg" [] rfl rfl,
   (decode_failure_propagated (sampleExternals "" none) ⟨okTransport []⟩
     ⟨"unexpected end of JSON input"⟩).2.2.2.2.1 "leaf1" "k1" [] rfl rfl,
   (decode_failure_propagated (sampleExternals "" none) ⟨okTransport []⟩
     ⟨"unexpected end of JSON input"⟩).2.2.2.2.2.1 "cfg" "leaf1" "k1" [0x7b] [] rfl rfl rfl,
   (decode_failure_propagated (sampleExternals "" none) ⟨okTransport []⟩
     ⟨"unexpected end of JSON input"⟩).2.2.2.2.2.2.1 "cfg" "leaf1" "k1" [] rfl rfl,
   (decode_failure_propagated (sampleExternals "" none) ⟨okTransport []⟩
     ⟨"unexpected end of JSON input"⟩).2.2.2.2.2.2.2.1 "leaf1" [] rfl rfl,
   (decode_failure_propagated (sampleExternals "" none) ⟨okTransport []⟩
     ⟨"unexpected end of JSON input"⟩).2.2.2.2.2.2.2.2.1 "leaf" 0 10 [] rfl rfl,
   (decode_failure_propagated (sampleExternals "" none) ⟨okTransport []⟩
     ⟨"unexpected end of JSON input"⟩).2.2.2.2.2.2.2.2.2 "leaf" [] rfl rfl⟩

/-! ## Success path -/

/-- C7: the success path returns the decoded payload.  For each of GetConfigletByName,
GetConfigletHistory, AddConfiglet, GetAppliedDevices and SearchConfigletsWithRange: if the
transport call succeeds, the response decodes and the embedded error check of the envelope
reports no failure, the operation returns the decoded envelope itself (for AddConfiglet the
Data configlet of the envelope) with a nil error; a non-nil result is returned in that case
only; and a nil error comes with a non-nil result, except that GetConfigletByName returns
(nil, nil) exactly in its not-found case (an embedded error whose code is "132801"). -/
theorem success_returns_decoded_payload (X : Externals) (c : CvpRestAPI) :
    (∀ (name : String),
      (∀ (resp : Bytes) (info : Configlet),
        c.client.Get "/configlet/getConfigletByName.do" (some [("name", [name])]) = .ok resp →
        X.UnmarshalConfiglet resp = .ok info →
        X.Error info.toErrorResponse = none →
        (GetConfigletByName X c name).val = some info ∧ (GetConfigletByName X c name).err = none) ∧
      ((GetConfigletByName X c name).val ≠ none →
        ∃ (resp : Bytes) (info : Configlet),
          c.client.Get "/configlet/getConfigletByName.do" (some [("name", [name])]) = .ok resp ∧
          X.UnmarshalConfiglet resp = .ok info ∧
          X.Error info.toErrorResponse = none) ∧
      ((GetConfigletByName X c name).err = none ∧ (GetConfigletByName X c name).val = none ↔
        ∃ (resp : Bytes) (info : Configlet) (err : GoError),
          c.client.Get "/configlet/getConfigletByName.do" (some [("name", [name])]) = .ok resp ∧
          X.UnmarshalConfiglet resp = .ok info ∧
          X.Error info.toErrorResponse = some err ∧ info.ErrorCode = "132801")) ∧
    (∀ (key : String) (start end_ : Int),
      (∀ (resp : Bytes) (info : ConfigletHistoryList),
        c.client.Get "/configlet/getConfigletHistory.do"
          (some [("configletId", [key]), ("queryparam", [""]),
            ("startIndex", [Itoa start]), ("endIndex", [Itoa end_])]) = .ok resp →
        X.UnmarshalConfigletHistoryList resp = .ok info →
        X.Error info.toErrorResponse = none →
        (GetConfigletHistory X c key start end_).val = some info ∧ (GetConfigletHistory X c key start end_).err = none) ∧
      ((GetConfigletHistory X c key start end_).val ≠ none →
        ∃ (resp : Bytes) (info : ConfigletHistoryList),
          c.client.Get "/configlet/getConfigletHistory.do"
            (some [("configletId", [key]), ("queryparam", [""]),
              ("startIndex", [Itoa start]), ("endIndex", [Itoa end_])]) = .ok resp ∧
          X.UnmarshalConfigletHistoryList resp = .ok info ∧
          X.Error info.toErrorResponse = none) ∧
      ((GetConfigletHistory X c key start end_).err = none → (GetConfigletHistory X c key start end_).val ≠ none)) ∧
    (∀ (name config : String),
      (∀ (resp : Bytes) (info : ConfigletOpReturn),
        c.client.Post "/configlet/addConfiglet.do" none
          (Body.stringMap [("name", name), ("config", config)]) = .ok resp →
        X.UnmarshalConfigletOpReturn resp = .ok info →
        X.Error info.toErrorResponse = none →
        (AddConfiglet X c name config).val = some info.Data ∧ (AddConfiglet X c name config).err = none) ∧
      ((AddConfiglet X c name config).val ≠ none →
        ∃ (resp : Bytes) (info : ConfigletOpReturn),
          c.client.Post "/configlet/addConfiglet.do" none
            (Body.stringMap [("name", name), ("config", config)]) = .ok resp ∧
          X.UnmarshalConfigletOpReturn resp = .ok info ∧
          X.Error info.toErrorResponse = none) ∧
      ((AddConfiglet X c name config).err = none → (AddConfiglet X c name config).val ≠ none)) ∧
    (∀ (name : String),
      (∀ (resp : Bytes) (info : DeviceList),
        c.client.Get "/configlet/getAppliedDevices.do"
          (some [("configletName", [name]), ("queryparam", [""]), ("startIndex", ["0"]),
            ("endIndex", ["0"])]) = .ok resp →
        X.UnmarshalDeviceList resp = .ok info →
        X.Error info.toErrorResponse = none →
        (GetAppliedDevices X c name).val = some info ∧ (GetAppliedDevices X c name).err = none) ∧
      ((GetAppliedDevices X c name).val ≠ none →
        ∃ (resp : Bytes) (info : DeviceList),
          c.client.Get "/configlet/getAppliedDevices.do"
            (some [("configletName", [name]), ("queryparam", [""]), ("startIndex", ["0"]),
              ("endIndex", ["0"])]) = .ok resp ∧
          X.UnmarshalDeviceList resp = .ok info ∧
          X.Error info.toErrorResponse = none) ∧
      ((GetAppliedDevices X c name).err = none → (GetAppliedDevices X c name).val ≠ none)) ∧
    (∀ (searchStr : String) (start end_ : Int),
      (∀ (resp : Bytes) (info : ConfigletList),
        c.client.Get "/configlet/searchConfiglets.do"
          (some [("queryparam", [searchStr]), ("startIndex", [Itoa start]),
            ("endIndex", [Itoa end_])]) = .ok resp →
        X.UnmarshalConfigletList resp = .ok info →
        X.Error info.toErrorResponse = none →
        (SearchConfigletsWithRange X c searchStr start end_).val = some info ∧ (SearchConfigletsWithRange X c searchStr start end_).err = none) ∧
      ((SearchConfigletsWithRange X c searchStr start end_).val ≠ none →
        ∃ (resp : Bytes) (info : ConfigletList),
          c.client.Get "/configlet/searchConfiglets.do"
            (some [("queryparam", [searchStr]), ("startIndex", [Itoa start]),
              ("endIndex", [Itoa end_])]) = .ok resp ∧
          X.UnmarshalConfigletList resp = .ok info ∧
          X.Error info.toErrorResponse = none) ∧
      ((SearchConfigletsWithRange X c searchStr start end_).err = none → (SearchConfigletsWithRange X c searchStr start end_).val ≠ none)) := by
  refine ⟨?_, ?_, ?_, ?_, ?_⟩
  · intro name
    refine ⟨fun resp info h1 h2 h3 => by simp [GetConfigletByName, Itoa_zero, h1, h2, h3], ?_⟩
    unfold GetConfigletByName
    simp only [Itoa_zero]
    split
    · simp_all
    · split
      · simp_all
      · split
        · split <;> simp_all
        · simp_all
  · intro key start end_
    refine ⟨fun resp info h1 h2 h3 => by simp [GetConfigletHistory, Itoa_zero, h1, h2, h3], ?_⟩
    unfold GetConfigletHistory
    simp only [Itoa_zero]
    split
    · simp_all
    · split
      · simp_all
      · split <;> simp_all
  · intro name config
    refine ⟨fun resp info h1 h2 h3 => by simp [AddConfiglet, Itoa_zero, h1, h2, h3], ?_⟩
    unfold AddConfiglet
    simp only [Itoa_zero]
    split
    · simp_all
    · split
      · simp_all
      · split <;> simp_all
  · intro name
    refine ⟨fun resp info h1 h2 h3 => by simp [GetAppliedDevices, Itoa_zero, h1, h2, h3], ?_⟩
    unfold GetAppliedDevices
    simp only [Itoa_zero]
    split
    · simp_all
    · split
      · simp_all
      · split <;> simp_all
  · intro searchStr start end_
    refine ⟨fun resp info h1 h2 h3 => by simp [SearchConfigletsWithRange, Itoa_zero, h1, h2, h3], ?_⟩
    unfold SearchConfigletsWithRange
    simp only [Itoa_zero]
    split
    · simp_all
    · split
      · simp_all
      · split <;> simp_all

/-- The five operations at an envelope without embedded error, and GetConfigletByName at the
not-found envelope. -/
theorem success_returns_decoded_payload_witness :
    ((okTransport [0x7b]).Get "/configlet/getConfigletByName.do" (some [("name", ["leaf1"])])
        = .ok [0x7b] ∧
      (sampleExternals "" none).UnmarshalConfiglet [0x7b]
        = .ok (sampleConfiglet "" "message") ∧
      (sampleExternals "" none).Error (sampleConfiglet "" "message").toErrorResponse = none) ∧
    ((GetConfigletByName (sampleExternals "" none) ⟨okTransport [0x7b]⟩ "leaf1").val
        = some (sampleConfiglet "" "message") ∧
      (GetConfigletByName (sampleExternals "" none) ⟨okTransport [0x7b]⟩ "leaf1").err
        = none) ∧
    ((GetConfigletHistory (sampleExternals "" none) ⟨okTransport [0x7b]⟩ "k1" 0 10).val
        = some { ErrorCode := "", ErrorMessage := "message", Total := 0, HistoryList := none } ∧
      (GetConfigletHistory (sampleExternals "" none) ⟨okTransport [0x7b]⟩ "k1" 0 10).err
        = none) ∧
    ((AddConfiglet (sampleExternals "" none) ⟨okTransport [0x7b]⟩ "leaf1" "cfg").val
        = some (sampleConfiglet "" "") ∧
      (AddConfiglet (sampleExternals "" none) ⟨okTransport [0x7b]⟩ "leaf1" "cfg").err
        = none) ∧
    ((GetAppliedDevices (sampleExternals "" none) ⟨okTransport [0x7b]⟩ "leaf1").val
        = some { ErrorCode := "", ErrorMessage := "message", Total := 0, Data := none } ∧
      (GetAppliedDevices (sampleExternals "" none) ⟨okTransport [0x7b]⟩ "leaf1").err
        = none) ∧
    ((SearchConfigletsWithRange (sampleExternals "" none) ⟨okTransport [0x7b]⟩
        "leaf" 0 10).val
        = some { ErrorCode := "", ErrorMessage := "message", Total := 0, Data := none } ∧
      (SearchConfigletsWithRange (sampleExternals "" none) ⟨okTransport [0x7b]⟩
        "leaf" 0 10).err = none) ∧
    ((GetConfigletByName (sampleExternals "132801" none) ⟨okTransport [0x7b]⟩ "leaf1").err
        = none ∧
      (GetConfigletByName (sampleExternals "132801" none) ⟨okTransport [0x7b]⟩ "leaf1").val
        = none) :=
  ⟨⟨rfl, rfl, by decide⟩,
   ((success_returns_decoded_payload (sampleExternals "" none) ⟨okTransport [0x7b]⟩).1
     "leaf1").1 [0x7b] _ rfl rfl (by decide),
   ((success_returns_decoded_payload (sampleExternals "" none) ⟨okTransport [0x7b]⟩).2.1
     "k1" 0 10).1 [0x7b] _ rfl rfl (by decide),
   ((success_returns_decoded_payload (sampleExternals "" none) ⟨okTransport [0x7b]⟩).2.2.1
     "leaf1" "cfg").1 [0x7b] _ rfl rfl (by decide),
   ((success_returns_decoded_payload (sampleExternals "" none) ⟨okTransport [0x7b]⟩).2.2.2.1
     "leaf1").1 [0x7b] _ rfl rfl (by decide),
   ((success_returns_decoded_payload (sampleExternals "" none) ⟨okTransport [0x7b]⟩).2.2.2.2
     "leaf" 0 10).1 [0x7b] _ rfl rfl (by decide),
   ((success_returns_decoded_payload (sampleExternals "132801" none) ⟨okTransport [0x7b]⟩).1
     "leaf1").2.2.mpr ⟨[0x7b], _, ⟨"message"⟩, rfl, rfl, by decide, by decide⟩⟩

/-! ## Synchronous update -/

/-- C5 as stated fails on an envelope that carries both task identifiers and an embedded
error: the envelope decoded from the response lists the task "21", the embedded error check
reports a failure, and UpdateConfiglet returns the nil sequence, so the returned sequence is
empty although the taskIds list of the envelope is not. -/
theorem UpdateConfiglet_taskIds_counterexample :
    (sampleExternals "1234" (some ["21"])).MarshalUpdateData
        { Config := "cfg", Key := "k1", Name := "leaf1", WaitForTaskIDs := true }
      = .ok [0x7b] ∧
    (okTransport [0x7b]).Post "/configlet/updateConfiglet.do" none (Body.bytes [0x7b])
      = .ok [0x7b] ∧
    (sampleExternals "1234" (some ["21"])).UnmarshalUpdateReturn [0x7b]
      = .ok { ErrorCode := "1234", ErrorMessage := "message", Data := "",
              TaskIDs := some ["21"] } ∧
    UpdateConfiglet (sampleExternals "1234" (some ["21"])) ⟨okTransport [0x7b]⟩
        "cfg" "leaf1" "k1"
      = ⟨[Call.Post "/configlet/updateConfiglet.do" none (Body.bytes [0x7b])], none,
         some ⟨"UpdateConfiglet: message"⟩⟩ ∧
    ¬ (Slice.len (UpdateConfiglet (sampleExternals "1234" (some ["21"]))
          ⟨okTransport [0x7b]⟩ "cfg" "leaf1" "k1").val = 0 ↔
        Slice.len (some ["21"] : Slice String) = 0) := by
  refine ⟨rfl, rfl, rfl, by decide, by decide⟩

/-- C5, amended: when the transport answers and the response decodes into an UpdateReturn
envelope, then (a) if the embedded error check reports no failure, UpdateConfiglet returns
exactly the taskIds of the envelope, in the same order, with a nil error, so the returned
sequence is empty if and only if the taskIds list of the envelope is empty; (b) if the check
reports a failure, the returned sequence is nil, hence empty, and the error is non-nil,
whatever the taskIds of the envelope. -/
theorem UpdateConfiglet_taskIds (X : Externals) (c : CvpRestAPI) (config name key : String)
    (jsonData resp : Bytes) (info : UpdateReturn)
    (hmar : X.MarshalUpdateData
      { Config := config, Key := key, Name := name, WaitForTaskIDs := true } = .ok jsonData)
    (hpost : c.client.Post "/configlet/updateConfiglet.do" none (Body.bytes jsonData)
      = .ok resp)
    (hdec : X.UnmarshalUpdateReturn resp = .ok info) :
    (X.Error info.toErrorResponse = none →
      (UpdateConfiglet X c config name key).val = info.TaskIDs ∧
      (UpdateConfiglet X c config name key).err = none ∧
      (Slice.len (UpdateConfiglet X c config name key).val = 0 ↔
        Slice.len info.TaskIDs = 0)) ∧
    (∀ err : GoError, X.Error info.toErrorResponse = some err →
      (UpdateConfiglet X c config name key).val = none ∧
      Slice.len (UpdateConfiglet X c config name key).val = 0 ∧
      (UpdateConfiglet X c config name key).err ≠ none) := by
  constructor
  · intro herr
    simp [UpdateConfiglet, hmar, hpost, hdec, herr]
  · intro err herr
    simp [UpdateConfiglet, hmar, hpost, hdec, herr, Slice.len]

/-- The synchronous update at an envelope listing the tasks "21" and "22" without embedded
error, and at the same envelope with the embedded error code "1234". -/
theorem UpdateConfiglet_taskIds_witness :
    ((sampleExternals "" (some ["21", "22"])).MarshalUpdateData
          { Config := "cfg", Key := "k1", Name := "leaf1", WaitForTaskIDs := true }
        = .ok [0x7b] ∧
      (okTransport [0x7b]).Post "/configlet/updateConfiglet.do" none (Body.bytes [0x7b])
        = .ok [0x7b] ∧
      (sampleExternals "" (some ["21", "22"])).UnmarshalUpdateReturn [0x7b]
        = .ok { ErrorCode := "", ErrorMessage := "message", Data := "",
                TaskIDs := some ["21", "22"] }) ∧
    ((UpdateConfiglet (sampleExternals "" (some ["21", "22"])) ⟨okTransport [0x7b]⟩
        "cfg" "leaf1" "k1").val = some ["21", "22"] ∧
      (UpdateConfiglet (sampleExternals "" (some ["21", "22"])) ⟨okTransport [0x7b]⟩
        "cfg" "leaf1" "k1").err = none ∧
      (Slice.len (UpdateConfiglet (sampleExternals "" (some ["21", "22"]))
          ⟨okTransport [0x7b]⟩ "cfg" "leaf1" "k1").val = 0 ↔
        Slice.len (some ["21", "22"] : Slice String) = 0)) ∧
    ((UpdateConfiglet (sampleExternals "1234" (some ["21", "22"])) ⟨okTransport [0x7b]⟩
        "cfg" "leaf1" "k1").val = none ∧
      Slice.len (UpdateConfiglet (sampleExternals "1234" (some ["21", "22"]))
        ⟨okTransport [0x7b]⟩ "cfg" "leaf1" "k1").val = 0 ∧
      (UpdateConfiglet (sampleExternals "1234" (some ["21", "22"])) ⟨okTransport [0x7b]⟩
        "cfg" "leaf1" "k1").err ≠ none) :=
  ⟨⟨rfl, rfl, rfl⟩,
   (UpdateConfiglet_taskIds (sampleExternals "" (some ["21", "22"])) ⟨okTransport [0x7b]⟩
     "cfg" "leaf1" "k1" [0x7b] [0x7b] _ rfl rfl rfl).1 (by decide),
   (UpdateConfiglet_taskIds (sampleExternals "1234" (some ["21", "22"])) ⟨okTransport [0x7b]⟩
     "cfg" "leaf1" "k1" [0x7b] [0x7b] _ rfl rfl rfl).2 ⟨"message"⟩ (by decide)⟩

/-! ## Requests -/

/-- C8: synchronous and asynchronous update each issue one POST to
/configlet/updateConfiglet.do with no query.  UpdateConfigletAsync posts the map with
exactly the three entries config, key and name, equal to the arguments, and no
waitForTaskIds entry; UpdateConfiglet posts the encoding of the struct whose Config, Key and
Name are the arguments and whose WaitForTaskIDs is true. -/
theorem update_requests (X : Externals) (c : CvpRestAPI) (config name key : String) :
    (UpdateConfigletAsync X c config name key).calls
      = [Call.Post "/configlet/updateConfiglet.do" none
          (Body.stringMap [("config", config), ("key", key), ("name", name)])] ∧
    (∃ m : StringMap,
      (UpdateConfigletAsync X c config name key).calls
        = [Call.Post "/configlet/updateConfiglet.do" none (Body.stringMap m)] ∧
      m.length = 3 ∧ m.lookup "config" = some config ∧ m.lookup "key" = some key ∧
      m.lookup "name" = some name ∧ m.lookup "waitForTaskIds" = none) ∧
    (∀ jsonData : Bytes,
      X.MarshalUpdateData
          { Config := config, Key := key, Name := name, WaitForTaskIDs := true }
        = .ok jsonData →
      (UpdateConfiglet X c config name key).calls
        = [Call.Post "/configlet/updateConfiglet.do" none (Body.bytes jsonData)]) := by
  have hasync : (UpdateConfigletAsync X c config name key).calls
      = [Call.Post "/configlet/updateConfiglet.do" none
          (Body.stringMap [("config", config), ("key", key), ("name", name)])] := by
    unfold UpdateConfigletAsync
    simp only
    split
    · rfl
    · split
      · rfl
      · split <;> rfl
  refine ⟨hasync, ?_, ?_⟩
  · exact ⟨[("config", config), ("key", key), ("name", name)], hasync, rfl,
      by simp [List.lookup], by simp [List.lookup], by simp [List.lookup],
      by simp [List.lookup]⟩
  · intro jsonData hmar
    unfold UpdateConfiglet
    simp only [hmar]
    split
    · rfl
    · split
      · rfl
      · split <;> rfl

/-- The two update requests for the configlet "leaf1" with key "k1". -/
theorem update_requests_witness :
    (sampleExternals "" none).MarshalUpdateData
        { Config := "cfg", Key := "k1", Name := "leaf1", WaitForTaskIDs := true }
      = .ok [0x7b] ∧
    (UpdateConfiglet (sampleExternals "" none) ⟨okTransport [0x7b]⟩ "cfg" "leaf1" "k1").calls
      = [Call.Post "/configlet/updateConfiglet.do" none (Body.bytes [0x7b])] ∧
    (UpdateConfigletAsync (sampleExternals "" none) ⟨okTransport [0x7b]⟩
        "cfg" "leaf1" "k1").calls
      = [Call.Post "/configlet/updateConfiglet.do" none
          (Body.stringMap [("config", "cfg"), ("key", "k1"), ("name", "leaf1")])] :=
  ⟨rfl,
   (update_requests (sampleExternals "" none) ⟨okTransport [0x7b]⟩
     "cfg" "leaf1" "k1").2.2 [0x7b] rfl,
   (update_requests (sampleExternals "" none) ⟨okTransport [0x7b]⟩ "cfg" "leaf1" "k1").1⟩

/-- C9: the unranged operations are the ranged ones at the range (0, 0).
GetAllConfigletHistory key issues the same request and returns the same result and error as
GetConfigletHistory key 0 0, and SearchConfiglets s the same as
SearchConfigletsWithRange s 0 0; the request sent carries startIndex "0" and
endIndex "0". -/
theorem unranged_is_range_zero_zero (X : Externals) (c : CvpRestAPI) :
    (∀ key : String,
      GetAllConfigletHistory X c key = GetConfigletHistory X c key 0 0 ∧
      (GetAllConfigletHistory X c key).calls
        = [Call.Get "/configlet/getConfigletHistory.do"
            (some [("configletId", [key]), ("queryparam", [""]), ("startIndex", ["0"]),
              ("endIndex", ["0"])])]) ∧
    (∀ searchStr : String,
      SearchConfiglets X c searchStr = SearchConfigletsWithRange X c searchStr 0 0 ∧
      (SearchConfiglets X c searchStr).calls
        = [Call.Get "/configlet/searchConfiglets.do"
            (some [("queryparam", [searchStr]), ("startIndex", ["0"]),
              ("endIndex", ["0"])])]) := by
  constructor
  · intro key
    refine ⟨rfl, ?_⟩
    unfold GetAllConfigletHistory GetConfigletHistory
    simp only [Itoa_zero]
    split
    · rfl
    · split
      · rfl
      · split <;> rfl
  · intro searchStr
    refine ⟨rfl, ?_⟩
    unfold SearchConfiglets SearchConfigletsWithRange
    simp only [Itoa_zero]
    split
    · rfl
    · split
      · rfl
      · split <;> rfl

/-- C10: DeleteConfiglet always submits a single-element batch.  The one call it issues is a
POST to /configlet/deleteConfiglet.do, without query, whose body is the list whose only
element is the map with exactly the two entries name and key, equal to the arguments. -/
theorem DeleteConfiglet_single_element_batch (X : Externals) (c : CvpRestAPI)
    (name key : String) :
    (DeleteConfiglet X c name key).calls
      = [Call.Post "/configlet/deleteConfiglet.do" none
          (Body.stringMapList [[("name", name), ("key", key)]])] ∧
    ∃ m : StringMap,
      (DeleteConfiglet X c name key).calls
        = [Call.Post "/configlet/deleteConfiglet.do" none (Body.stringMapList [m])] ∧
      m.length = 2 ∧ m.lookup "name" = some name ∧ m.lookup "key" = some key := by
  have hcalls : (DeleteConfiglet X c name key).calls
      = [Call.Post "/configlet/deleteConfiglet.do" none
          (Body.stringMapList [[("name", name), ("key", key)]])] := by
    unfold DeleteConfiglet
    simp only
    split
    · rfl
    · split
      · rfl
      · split <;> rfl
  exact ⟨hcalls, [("name", name), ("key", key)], hcalls, rfl, by simp [List.lookup],
    by simp [List.lookup]⟩

/-! ## Error messages -/

/-- C4 at a failing transport: whatever the failure `e`, the error returned by
UpdateConfigletAsync reads "UpdateConfiglet: " followed by the text of `e`, and the one
returned by SearchConfigletsWithRange reads "SearchConfiglets: " followed by the text of
`e`; neither begins with the name of the operation that was called followed by ": ". -/
theorem error_message_names_other_operation (X : Externals) (e : GoError)
    (config name key searchStr : String) (start end_ : Int) :
    (UpdateConfigletAsync X ⟨failTransport e⟩ config name key).err
      = some ⟨"UpdateConfiglet: " ++ e.msg⟩ ∧
    "UpdateConfiglet: " ++ e.msg ≠ "UpdateConfigletAsync: " ++ e.msg ∧
    (SearchConfigletsWithRange X ⟨failTransport e⟩ searchStr start end_).err
      = some ⟨"SearchConfiglets: " ++ e.msg⟩ ∧
    "SearchConfiglets: " ++ e.msg ≠ "SearchConfigletsWithRange: " ++ e.msg := by
  refine ⟨?_, ?_, ?_, ?_⟩
  · simp only [UpdateConfigletAsync, failTransport, Errorf, Option.some.injEq,
      GoError.mk.injEq]
    apply String.ext
    simp [Sprintf]
  · intro h
    have := congrArg String.data h
    simp at this
  · simp only [SearchConfigletsWithRange, failTransport, Errorf, Option.some.injEq,
      GoError.mk.injEq]
    apply String.ext
    simp [Sprintf]
  · intro h
    have := congrArg String.data h
    simp at this

theorem GetConfigletByName_Errorf (e : GoError) :
    (Errorf "GetConfigletByName: %s" e).msg = "GetConfigletByName: " ++ e.msg := by
  apply String.ext
  simp [Errorf, Sprintf]

theorem GetConfigletHistory_Errorf (e : GoError) :
    (Errorf "GetConfigletHistory: %s" e).msg = "GetConfigletHistory: " ++ e.msg := by
  apply String.ext
  simp [Errorf, Sprintf]

theorem AddConfiglet_Errorf (e : GoError) :
    (Errorf "AddConfiglet: %s" e).msg = "AddConfiglet: " ++ e.msg := by
  apply String.ext
  simp [Errorf, Sprintf]

theorem DeleteConfiglet_Errorf (e : GoError) :
    (Errorf "DeleteConfiglet: %s" e).msg = "DeleteConfiglet: " ++ e.msg := by
  apply String.ext
  simp [Errorf, Sprintf]

theorem UpdateConfiglet_Errorf (e : GoError) :
    (Errorf "UpdateConfiglet: %s" e).msg = "UpdateConfiglet: " ++ e.msg := by
  apply String.ext
  simp [Errorf, Sprintf]

theorem GetAppliedDevices_Errorf (e : GoError) :
    (Errorf "GetAppliedDevices: %s" e).msg = "GetAppliedDevices: " ++ e.msg := by
  apply String.ext
  simp [Errorf, Sprintf]

/-- The six operations whose messages do carry their own name: on every failing path of
GetConfigletByName, GetConfigletHistory, AddConfiglet, DeleteConfiglet, UpdateConfiglet and
GetAppliedDevices the returned error reads the name of the operation, ": ", and then the
message of the underlying error. -/
theorem error_message_names_operation (X : Externals) (c : CvpRestAPI) (g : GoError) :
    (∀ (name : String), (GetConfigletByName X c name).err = some g →
      ∃ u : GoError, g.msg = "GetConfigletByName: " ++ u.msg) ∧
    (∀ (key : String) (start end_ : Int), (GetConfigletHistory X c key start end_).err = some g →
      ∃ u : GoError, g.msg = "GetConfigletHistory: " ++ u.msg) ∧
    (∀ (name config : String), (AddConfiglet X c name config).err = some g →
      ∃ u : GoError, g.msg = "AddConfiglet: " ++ u.msg) ∧
    (∀ (name key : String), (DeleteConfiglet X c name key).err = some g →
      ∃ u : GoError, g.msg = "DeleteConfiglet: " ++ u.msg) ∧
    (∀ (config name key : String), (UpdateConfiglet X c config name key).err = some g →
      ∃ u : GoError, g.msg = "UpdateConfiglet: " ++ u.msg) ∧
    (∀ (name : String), (GetAppliedDevices X c name).err = some g →
      ∃ u : GoError, g.msg = "GetAppliedDevices: " ++ u.msg) := by
  refine ⟨?_, ?_, ?_, ?_, ?_, ?_⟩
  · intro name
    unfold GetConfigletByName
    simp only
    repeat' split
    all_goals first
      | simp; done
      | intro h; simp only [Option.some.injEq] at h; subst h; exact ⟨_, GetConfigletByName_Errorf _⟩
  · intro key start end_
    unfold GetConfigletHistory
    simp only
    repeat' split
    all_goals first
      | simp; done
      | intro h; simp only [Option.some.injEq] at h; subst h; exact ⟨_, GetConfigletHistory_Errorf _⟩
  · intro name config
    unfold AddConfiglet
    simp only
    repeat' split
    all_goals first
      | simp; done
      | intro h; simp only [Option.some.injEq] at h; subst h; exact ⟨_, AddConfiglet_Errorf _⟩
  · intro name key
    unfold DeleteConfiglet
    simp only
    repeat' split
    all_goals first
      | simp; done
      | intro h; simp only [Option.some.injEq] at h; subst h; exact ⟨_, DeleteConfiglet_Errorf _⟩
  · intro config name key
    unfold UpdateConfiglet
    simp only
    repeat' split
    all_goals first
      | simp; done
      | intro h; simp only [Option.some.injEq] at h; subst h; exact ⟨_, UpdateConfiglet_Errorf _⟩
  · intro name
    unfold GetAppliedDevices
    simp only
    repeat' split
    all_goals first
      | simp; done
      | intro h; simp only [Option.some.injEq] at h; subst h; exact ⟨_, GetAppliedDevices_Errorf _⟩

end cvpapi
